import Mathlib

/-!
Verification of the data-preparation logic of the NBA dashboard script
(`part3.py`): the player-table deduplication (`load_data`), the
minutes/team filter (`filtered_df`), the team-comparison table
(`comparison_data`) and the derived defense-quality column
(`defense_size`).  DataFrames are embedded as Lean lists of records;
pandas boolean-mask filtering is `List.filter` (order-preserving),
positional column assembly is `List.zipWith`, and `.str.strip()` is
`String.trim`.
-/

namespace Part3

/-- One player-team-season record of the player statistics table:
columns `Player`, `Tm`, `MP`, `PTS`, `FG%`, `AST` used by the script. -/
structure PlayerSeasonRow where
  player : String
  tm : String
  mp : ℚ
  pts : ℚ
  fgPct : ℚ
  ast : ℚ
deriving DecidableEq

/-- Embedding of `df[df['Tm'] == 'TOT']['Player'].unique()`: the player
names having at least one row with team code `"TOT"` (membership in this
list is what `isin` tests, so duplicates are irrelevant). -/
def tot_players (df : List PlayerSeasonRow) : List String :=
  (df.filter (fun r => r.tm == "TOT")).map (fun r => r.player)

/-- Embedding of the cleaning step of `load_data`:
`df[(df['Tm'] == 'TOT') | (~df['Player'].isin(tot_players))]`. -/
def clean_df (df : List PlayerSeasonRow) : List PlayerSeasonRow :=
  df.filter (fun r => r.tm == "TOT" || !((tot_players df).contains r.player))

/-- Embedding of the interactive filter:
`filtered_df = df[df['MP'] >= min_minutes]` followed by
`if selected_teams: filtered_df = filtered_df[filtered_df['Tm'].isin(selected_teams)]`
(a Python list is truthy exactly when it is non-empty). -/
def filtered_df (df : List PlayerSeasonRow) (min_minutes : ℚ)
    (selected_teams : List String) : List PlayerSeasonRow :=
  let byMinutes := df.filter (fun r => decide (min_minutes ≤ r.mp))
  if selected_teams.isEmpty then byMinutes
  else byMinutes.filter (fun r => selected_teams.contains r.tm)

/-- One row of the actual team-metrics table: columns `TEAM`, `WIN%`,
`CONF`, `PACE`, `PPG`, `dEFF`. -/
structure TeamRow where
  team : String
  winPct : ℚ
  conf : String
  pace : ℚ
  ppg : ℚ
  dEFF : ℚ
deriving DecidableEq

/-- One row of the expected (preseason) team-metrics table: columns
`TEAM_NAME`, `W_PCT`. -/
structure ExpectedRow where
  teamName : String
  wPct : ℚ
deriving DecidableEq

/-- One row of the assembled comparison table
(`Team`, `Actual_Win_PCT`, `Expected_Win_PCT`, `Conference`). -/
structure ComparisonRow where
  team : String
  actualWinPct : ℚ
  expectedWinPct : ℚ
  conference : String
deriving DecidableEq

/-- Removal of leading and trailing whitespace from a character list,
the semantics of the Python `str.strip()` call used on the team-name
columns. -/
def stripChars (s : List Char) : List Char :=
  ((s.dropWhile Char.isWhitespace).reverse.dropWhile Char.isWhitespace).reverse

/-- Python `str.strip()` on a string. -/
def strip (s : String) : String :=
  ⟨stripChars s.data⟩

/-- Embedding of `actual['TEAM'] = actual['TEAM'].str.strip()`. -/
def stripTeams (actual : List TeamRow) : List TeamRow :=
  actual.map (fun r => { r with team := strip r.team })

/-- Embedding of `expected['TEAM_NAME'] = expected['TEAM_NAME'].str.strip()`. -/
def stripExpected (expected : List ExpectedRow) : List ExpectedRow :=
  expected.map (fun r => { r with teamName := strip r.teamName })

/-- Embedding of the `comparison_data` DataFrame construction: the
columns of `actual` and `expected` are combined positionally (pandas
aligns the series on their identical default range index), after the
in-place trims above. -/
def comparison_data (actual : List TeamRow) (expected : List ExpectedRow) :
    List ComparisonRow :=
  List.zipWith (fun a e => ⟨a.team, a.winPct, e.wPct, a.conf⟩)
    (stripTeams actual) (stripExpected expected)

/-- Embedding of `actual['dEFF'].max()` (pandas max of the column; the
script only uses it on the non-empty loaded table). -/
def maxDEFF (actual : List TeamRow) : ℚ :=
  match actual with
  | [] => 0
  | r :: rs => rs.foldl (fun m s => max m s.dEFF) r.dEFF

/-- Embedding of the per-row value of the derived column
`actual['defense_size'] = actual['dEFF'].max() - actual['dEFF']`. -/
def defense_size (actual : List TeamRow) (r : TeamRow) : ℚ :=
  maxDEFF actual - r.dEFF

/-- Key bridging fact: membership of a name in `tot_players df` is
exactly the existence in `df` of a row with that name and team `"TOT"`. -/
lemma tot_players_contains (df : List PlayerSeasonRow) (p : String) :
    (tot_players df).contains p = true ↔
      ∃ s ∈ df, s.tm = "TOT" ∧ s.player = p := by
  simp only [tot_players, List.contains_iff_exists_mem_beq, List.mem_map,
    List.mem_filter, beq_iff_eq]
  constructor
  · rintro ⟨x, ⟨s, ⟨hs, htm⟩, hx⟩, hpx⟩
    exact ⟨s, hs, htm, by rw [hx, ← hpx]⟩
  · rintro ⟨s, hs, htm, hp⟩
    exact ⟨p, ⟨s, ⟨hs, by simp [htm]⟩, hp⟩, rfl⟩

/-- Pointwise Bool form of the cleaning predicate versus the spec
predicate expressed directly over the input table. -/
lemma clean_pred_eq (df : List PlayerSeasonRow) (r : PlayerSeasonRow) :
    (r.tm == "TOT" || !((tot_players df).contains r.player)) =
      (r.tm == "TOT" || !(df.any (fun s => s.tm == "TOT" && s.player == r.player))) := by
  have h : (tot_players df).contains r.player =
      df.any (fun s => s.tm == "TOT" && s.player == r.player) := by
    rw [Bool.eq_iff_iff]
    rw [tot_players_contains]
    simp [List.any_eq_true]
  rw [h]

/-- Shared characterization of the interactive filter as a single
`List.filter` over the cleaned table. -/
lemma filtered_df_eq_filter (df : List PlayerSeasonRow) (m : ℚ)
    (ts : List String) :
    filtered_df df m ts =
      df.filter (fun r => decide (m ≤ r.mp) &&
        (ts.isEmpty || ts.contains r.tm)) := by
  unfold filtered_df
  cases h : ts.isEmpty
  · simp only [h, Bool.false_eq_true, if_false, List.filter_filter]
    apply List.filter_congr
    intro r _
    rw [Bool.false_or, Bool.and_comm]
  · simp only [h, if_true]
    apply List.filter_congr
    intro r _
    rw [Bool.true_or, Bool.and_true]

/-- Claim C1: for every input table, the cleaning step of `load_data`
returns exactly the rows whose team code is `"TOT"`, or whose player
name has no `"TOT"` row anywhere in the input. -/
theorem clean_df_exact (df : List PlayerSeasonRow) :
    clean_df df =
      df.filter (fun r =>
        r.tm == "TOT" ||
          !(df.any (fun s => s.tm == "TOT" && s.player == r.player))) := by
  unfold clean_df
  exact List.filter_congr (fun r _ => clean_pred_eq df r)

/-- Claim C10: the cleaning step never reorders or modifies rows — its
output is a sublist (order-preserving subsequence of identical rows) of
the input. -/
theorem clean_df_sublist (df : List PlayerSeasonRow) :
    (clean_df df).Sublist df :=
  List.filter_sublist df

/-- Claim C5: the interactive filter returns exactly the rows with
minutes ≥ `min_minutes` that also have team code in `selected_teams`
when that set is non-empty (no team restriction when empty), and the
result is an order-preserving sub-sequence of the input; the input
table itself is untouched (the operation is a pure function of it). -/
theorem filtered_df_spec (df : List PlayerSeasonRow) (m : ℚ)
    (ts : List String) :
    filtered_df df m ts =
      df.filter (fun r => decide (m ≤ r.mp) &&
        (ts.isEmpty || ts.contains r.tm)) ∧
    (filtered_df df m ts).Sublist df := by
  refine ⟨filtered_df_eq_filter df m ts, ?_⟩
  rw [filtered_df_eq_filter df m ts]
  exact List.filter_sublist df

/-- Claim C6: raising the minutes threshold never increases the number
of rows returned by the interactive filter. -/
theorem filtered_df_mono (df : List PlayerSeasonRow) (m₁ m₂ : ℚ)
    (ts : List String) (h : m₁ ≤ m₂) :
    (filtered_df df m₂ ts).length ≤ (filtered_df df m₁ ts).length := by
  rw [filtered_df_eq_filter df m₁ ts, filtered_df_eq_filter df m₂ ts]
  rw [← List.countP_eq_length_filter, ← List.countP_eq_length_filter]
  apply List.countP_mono_left
  intro r _ hr
  simp only [Bool.and_eq_true, decide_eq_true_eq] at hr ⊢
  exact ⟨le_trans h hr.1, hr.2⟩

/-- Claim C7: with threshold 0, an empty team selection, and all
minutes values non-negative, the interactive filter is the identity. -/
theorem filtered_df_id (df : List PlayerSeasonRow)
    (h : ∀ r ∈ df, 0 ≤ r.mp) :
    filtered_df df 0 [] = df := by
  rw [filtered_df_eq_filter]
  rw [List.filter_eq_self]
  intro r hr
  simp [h r hr]

/-- Claim C8: the interactive filter is idempotent (applying it twice
with the same parameters equals applying it once); determinism is
inherent, the embedding being a pure function of its arguments. -/
theorem filtered_df_idem (df : List PlayerSeasonRow) (m : ℚ)
    (ts : List String) :
    filtered_df (filtered_df df m ts) m ts = filtered_df df m ts := by
  rw [filtered_df_eq_filter df m ts, filtered_df_eq_filter]
  rw [List.filter_filter]
  apply List.filter_congr
  intro r _
  rw [Bool.and_self]

/-- The four-row example table of the specification: a traded player
`"A"` with a `"TOT"` aggregate row and two per-team fragments, and a
one-team player `"B"`. -/
def exampleRows : List PlayerSeasonRow :=
  [⟨"A", "TOT", 30, 20, 1/2, 5⟩,
   ⟨"A", "LAL", 15, 10, 1/2, 2⟩,
   ⟨"A", "BOS", 18, 12, 1/2, 3⟩,
   ⟨"B", "NYK", 25, 18, 9/20, 4⟩]

/-- A table in which one player name occurs on two per-team rows with
no `"TOT"` aggregate row. -/
def dupRows : List PlayerSeasonRow :=
  [⟨"A", "LAL", 15, 10, 1/2, 2⟩,
   ⟨"A", "BOS", 18, 12, 1/2, 3⟩]

/-- Claim C4: every row the cleaning step outputs for a player that has
at least one `"TOT"` row in the input is itself a `"TOT"` row, never a
per-team fragment. -/
theorem clean_df_tot_row (df : List PlayerSeasonRow) (r : PlayerSeasonRow)
    (hr : r ∈ clean_df df)
    (h : ∃ s ∈ df, s.player = r.player ∧ s.tm = "TOT") :
    r.tm = "TOT" := by
  unfold clean_df at hr
  rw [List.mem_filter] at hr
  obtain ⟨_, hpred⟩ := hr
  rw [Bool.or_eq_true] at hpred
  cases hpred with
  | inl h₁ => exact beq_iff_eq.mp h₁
  | inr h₂ =>
    exfalso
    rw [Bool.not_eq_eq_eq_not, Bool.not_true] at h₂
    obtain ⟨s, hs, hp, ht⟩ := h
    have hc : (tot_players df).contains r.player = true :=
      (tot_players_contains df r.player).mpr ⟨s, hs, ht, hp⟩
    rw [hc] at h₂
    exact Bool.noConfusion h₂

/-- Computation of the cleaning step on the specification example: the
two fragments of the traded player are dropped. -/
lemma clean_df_exampleRows :
    clean_df exampleRows =
      [⟨"A", "TOT", 30, 20, 1/2, 5⟩, ⟨"B", "NYK", 25, 18, 9/20, 4⟩] := rfl

/-- Witness for C4 on the specification example: the output row of the
traded player `"A"` is the `"TOT"` row. -/
theorem clean_df_tot_row_witness :
    (⟨"A", "TOT", 30, 20, 1/2, 5⟩ : PlayerSeasonRow).tm = "TOT" :=
  clean_df_tot_row exampleRows ⟨"A", "TOT", 30, 20, 1/2, 5⟩
    (by rw [clean_df_exampleRows]; exact List.mem_cons_self _ _)
    ⟨⟨"A", "TOT", 30, 20, 1/2, 5⟩, List.mem_cons_self _ _, rfl, rfl⟩

/-- Counterexample to C2 as stated: on a table with two per-team rows
for the same player and no `"TOT"` row, the cleaning step keeps both
rows, so that player name appears twice in the output. -/
theorem clean_df_unique_counterexample :
    "A" ∈ dupRows.map (fun r => r.player) ∧
    (clean_df dupRows).countP (fun r => r.player == "A") = 2 := by
  decide

/-- Claim C2 (amended): unconditionally, the output row count never
exceeds the input row count and every player name present in the input
still appears in the output; and under the data invariant — at most one
`"TOT"` row for the player, and exactly one row if the player has no
`"TOT"` row — that player name appears exactly once in the output of
the cleaning step. -/
theorem clean_df_unique_players (df : List PlayerSeasonRow) (p : String)
    (hmem : p ∈ df.map (fun r => r.player)) :
    (clean_df df).length ≤ df.length ∧
    p ∈ (clean_df df).map (fun r => r.player) ∧
    ((df.countP (fun r => r.player == p && r.tm == "TOT") ≤ 1 ∧
      (df.countP (fun r => r.player == p && r.tm == "TOT") = 0 →
        df.countP (fun r => r.player == p) = 1)) →
      (clean_df df).countP (fun r => r.player == p) = 1) := by
  refine ⟨List.length_filter_le _ df, ?_, ?_⟩
  · rw [List.mem_map] at hmem
    obtain ⟨r, hrdf, hrp⟩ := hmem
    by_cases hc : (tot_players df).contains p = true
    · obtain ⟨s, hs, htm, hsp⟩ := (tot_players_contains df p).mp hc
      rw [List.mem_map]
      refine ⟨s, ?_, hsp⟩
      unfold clean_df
      rw [List.mem_filter]
      refine ⟨hs, ?_⟩
      rw [Bool.or_eq_true]
      exact Or.inl (beq_iff_eq.mpr htm)
    · have hc0 : (tot_players df).contains p = false := Bool.eq_false_iff.mpr hc
      rw [List.mem_map]
      refine ⟨r, ?_, hrp⟩
      unfold clean_df
      rw [List.mem_filter]
      refine ⟨hrdf, ?_⟩
      rw [Bool.or_eq_true]
      right
      rw [hrp, hc0]
      rfl
  · rintro ⟨htot, hone⟩
    unfold clean_df
    rw [List.countP_filter]
    by_cases hz : df.countP (fun r => r.player == p && r.tm == "TOT") = 0
    · have hnc : (tot_players df).contains p = false := by
        rw [Bool.eq_false_iff]
        intro hc
        obtain ⟨s, hs, ht, hp⟩ := (tot_players_contains df p).mp hc
        have : 0 < df.countP (fun r => r.player == p && r.tm == "TOT") := by
          rw [List.countP_pos_iff]
          exact ⟨s, hs, by simp [ht, hp]⟩
        omega
      rw [← hone hz]
      apply List.countP_congr
      intro r hrdf
      simp only [Bool.and_eq_true, Bool.or_eq_true, beq_iff_eq,
        Bool.not_eq_eq_eq_not, Bool.not_true]
      constructor
      · exact fun h => h.1
      · intro hp
        refine ⟨hp, Or.inr ?_⟩
        rw [hp]
        exact hnc
    · have hcount : df.countP (fun r => r.player == p && r.tm == "TOT") = 1 := by
        omega
      have hc : (tot_players df).contains p = true := by
        have hpos : 0 < df.countP (fun r => r.player == p && r.tm == "TOT") := by
          omega
        rw [List.countP_pos_iff] at hpos
        obtain ⟨s, hs, hsp⟩ := hpos
        simp only [Bool.and_eq_true, beq_iff_eq] at hsp
        exact (tot_players_contains df p).mpr ⟨s, hs, hsp.2, hsp.1⟩
      rw [← hcount]
      apply List.countP_congr
      intro r hrdf
      simp only [Bool.and_eq_true, Bool.or_eq_true, beq_iff_eq,
        Bool.not_eq_eq_eq_not, Bool.not_true]
      constructor
      · rintro ⟨hp, htm | hnc⟩
        · exact ⟨hp, htm⟩
        · exfalso
          rw [hp] at hnc
          rw [hc] at hnc
          exact Bool.noConfusion hnc
      · rintro ⟨hp, htm⟩
        exact ⟨hp, Or.inl htm⟩

/-- Witness for C2 (amended) on the specification example. -/
theorem clean_df_unique_players_witness :
    (clean_df exampleRows).length ≤ exampleRows.length ∧
    "A" ∈ (clean_df exampleRows).map (fun r => r.player) ∧
    ((exampleRows.countP (fun r => r.player == "A" && r.tm == "TOT") ≤ 1 ∧
      (exampleRows.countP (fun r => r.player == "A" && r.tm == "TOT") = 0 →
        exampleRows.countP (fun r => r.player == "A") = 1)) →
      (clean_df exampleRows).countP (fun r => r.player == "A") = 1) :=
  clean_df_unique_players exampleRows "A" (by decide)

/-- Witness for C6: on the specification example, raising the minimum
minutes from 20 to 28 does not increase the row count. -/
theorem filtered_df_mono_witness :
    (filtered_df exampleRows 28 []).length ≤
      (filtered_df exampleRows 20 []).length :=
  filtered_df_mono exampleRows 20 28 [] (by norm_num)

/-- Witness for C7: on the specification example, threshold 0 with the
empty team set returns the table unchanged. -/
theorem filtered_df_id_witness :
    filtered_df exampleRows 0 [] = exampleRows :=
  filtered_df_id exampleRows (by decide)

/-- An accumulator is a lower bound of the running maximum used by
`maxDEFF`. -/
lemma le_foldl_max (rs : List TeamRow) (init : ℚ) :
    init ≤ rs.foldl (fun m s => max m s.dEFF) init := by
  induction rs generalizing init with
  | nil => exact le_refl init
  | cons s rs ih =>
    simp only [List.foldl_cons]
    exact le_trans (le_max_left init s.dEFF) (ih (max init s.dEFF))

/-- Every element of the fold is a lower bound of the running maximum
used by `maxDEFF`. -/
lemma mem_le_foldl_max (rs : List TeamRow) (s : TeamRow) (hs : s ∈ rs) :
    ∀ init : ℚ, s.dEFF ≤ rs.foldl (fun m t => max m t.dEFF) init := by
  induction hs with
  | head rest =>
    intro init
    simp only [List.foldl_cons]
    exact le_trans (le_max_right init s.dEFF) (le_foldl_max rest _)
  | tail t hmem ih =>
    intro init
    simp only [List.foldl_cons]
    exact ih _

/-- The column maximum bounds every row of the table. -/
lemma dEFF_le_maxDEFF (rows : List TeamRow) (r : TeamRow) (hr : r ∈ rows) :
    r.dEFF ≤ maxDEFF rows := by
  cases rows with
  | nil => cases hr
  | cons t rs =>
    unfold maxDEFF
    rcases List.mem_cons.mp hr with h | h
    · subst h
      exact le_foldl_max rs r.dEFF
    · exact mem_le_foldl_max rs r h t.dEFF

/-- Claim C9: the derived defense-quality value (column maximum of
`dEFF` minus the row value) is non-negative for every row of the table
and strictly anti-monotone in `dEFF`: of any two rows, the one with the
lower defensive rating gets the strictly larger value. -/
theorem defense_size_spec (rows : List TeamRow) (r r₁ r₂ : TeamRow)
    (hr : r ∈ rows) (_h₁ : r₁ ∈ rows) (_h₂ : r₂ ∈ rows)
    (hlt : r₁.dEFF < r₂.dEFF) :
    0 ≤ defense_size rows r ∧
      defense_size rows r₂ < defense_size rows r₁ := by
  have hb := dEFF_le_maxDEFF rows r hr
  unfold defense_size
  constructor
  · linarith
  · linarith

/-- The actual team-metrics table used in the join and defense-size
examples; the first team name carries the trailing whitespace present
in the source file. -/
def exActual : List TeamRow :=
  [⟨"Boston Celtics ", 7/10, "East", 99, 120, 110⟩,
   ⟨"LA Lakers", 3/5, "West", 101, 115, 113⟩]

/-- The expected (preseason) team-metrics table of the example, listing
the same two teams in the opposite order. -/
def exExpected : List ExpectedRow :=
  [⟨"LA Lakers", 1/2⟩, ⟨"Boston Celtics", 13/20⟩]

/-- Witness for C9 on the example table: the Boston row (lower `dEFF`)
has a non-negative defense-quality value strictly larger than the
Lakers row value. -/
theorem defense_size_spec_witness :
    0 ≤ defense_size exActual ⟨"LA Lakers", 3/5, "West", 101, 115, 113⟩ ∧
      defense_size exActual ⟨"LA Lakers", 3/5, "West", 101, 115, 113⟩ <
        defense_size exActual ⟨"Boston Celtics ", 7/10, "East", 99, 120, 110⟩ :=
  defense_size_spec exActual
    ⟨"LA Lakers", 3/5, "West", 101, 115, 113⟩
    ⟨"Boston Celtics ", 7/10, "East", 99, 120, 110⟩
    ⟨"LA Lakers", 3/5, "West", 101, 115, 113⟩
    (by simp [exActual]) (by simp [exActual]) (by simp [exActual])
    (by norm_num)

/-- Claim C3 evaluated on the example input: the `comparison_data`
construction pairs the tables by position, so the produced row for
Boston carries the Lakers preseason value 1/2 even though the expected
table, after trimming, gives Boston the value 13/20 — a comparison row
mixes data of two different teams, contradicting the claim. -/
theorem comparison_data_mixes_teams :
    comparison_data exActual exExpected =
      [⟨"Boston Celtics", 7/10, 1/2, "East"⟩,
       ⟨"LA Lakers", 3/5, 13/20, "West"⟩] ∧
    ((stripExpected exExpected).filter
        (fun e => e.teamName == "Boston Celtics")).map (fun e => e.wPct) =
      [13/20] :=
  ⟨rfl, rfl⟩

end Part3
